import Mathlib

/-!
Shallow embedding of the Bright Data search-engine component
(src/backend/base/langflow/components/brightdata/brightdata_search_engine.py).

The component has four responsibilities, embedded here as pure functions:
query extraction (`get_query_from_input`), URL building (`_build_search_url`,
on top of a model of `urllib.parse.quote`), the single HTTP POST (modelled by
an `HTTPRequest` value and an `HTTPOutcome` parameter standing for the
response or transport failure the network delivers), and result packaging
(`search_web`).  A Python `Data` record is a text payload plus an association
list of string keys to values; `Except PyExc` models exception propagation,
and the `try/except requests.RequestException` block of `search_web` is split
into `search_web_try` (the try body, which can raise) and the handler
`except_handler`.
-/

namespace Brightdata

/-- A value stored in the `data` dict of a langflow `Data` record:
the component stores strings and one integer (`results_length`). -/
inductive DValue where
  | str : String → DValue
  | nat : Nat → DValue
deriving DecidableEq, Repr

/-- Model of `langflow.schema.Data`: a text payload plus a dict,
modelled as an association list in insertion order. -/
structure Data where
  text : String
  data : List (String × DValue)
deriving DecidableEq, Repr

/-- Dict lookup on the `data` association list. -/
def Data.lookup (d : Data) (k : String) : Option DValue :=
  List.lookup k d.data

/-- The outbound HTTP POST issued by `requests.post`:
endpoint URL, JSON payload, headers, timeout in seconds. -/
structure HTTPRequest where
  url : String
  payload : List (String × String)
  headers : List (String × String)
  timeout : Nat
deriving DecidableEq, Repr

/-- An HTTP response as seen through `requests`: status code and body text. -/
structure HTTPResponse where
  status_code : Nat
  text : String
deriving DecidableEq, Repr

/-- What the network delivers for the single POST: either a response or a
transport-level failure (`requests.RequestException`, e.g. connection error
or timeout) carrying its exception text. -/
inductive HTTPOutcome where
  | response : HTTPResponse → HTTPOutcome
  | requestException : String → HTTPOutcome
deriving DecidableEq, Repr

/-- Exceptions that the code can raise: the dispatcher (`requests.post`) is
the only raising operation in `search_web`, and it raises
`requests.RequestException`. -/
inductive PyExc where
  | requestException : String → PyExc
deriving DecidableEq, Repr

/-- The `query_input` value: a Message-like object exposing a `text` field,
a plain string, or Python `None`. -/
inductive QueryInput where
  | message : String → QueryInput
  | plain : String → QueryInput
  | noneVal : QueryInput
deriving DecidableEq, Repr

/-- Python `str.strip` whitespace set (ASCII part, as used by the code). -/
def isPySpace (c : Char) : Bool :=
  c = ' ' || c = '\t' || c = '\n' || c = '\r' || c = '\x0B' || c = '\x0C'

/-- Python `str.strip`: drop leading and trailing whitespace. -/
def pyStrip (s : String) : String :=
  String.mk (((s.data.dropWhile isPySpace).reverse.dropWhile isPySpace).reverse)

/-- `get_query_from_input`: `str(self.query_input.text).strip()` when the
input has a `text` attribute, else `str(self.query_input or "").strip()`
(Python `None` and the empty string are falsy and give `""`). -/
def get_query_from_input (query_input : QueryInput) : String :=
  match query_input with
  | .message t => pyStrip t
  | .plain s => pyStrip (if s = "" then "" else s)
  | .noneVal => pyStrip ""

/-- Characters `urllib.parse.quote` leaves unencoded: the always-safe set
(ASCII letters, digits, `_.-~`) plus the default `safe='/'`. -/
def isQuoteSafe (c : Char) : Bool :=
  c.isAlpha || c.isDigit || c = '_' || c = '.' || c = '-' || c = '~' || c = '/'

/-- Uppercase hex digit, as produced by `quote`'s percent-escapes. -/
def hexDigitChar (n : Nat) : Char :=
  "0123456789ABCDEF".data.getD n '0'

/-- One percent-escape `%XX` for a byte. -/
def percentEncodeByte (b : Nat) : List Char :=
  ['%', hexDigitChar (b / 16 % 16), hexDigitChar (b % 16)]

/-- UTF-8 bytes of one character (as `quote` encodes non-safe characters). -/
def utf8Bytes (c : Char) : List Nat :=
  let n := c.toNat
  if n < 0x80 then [n]
  else if n < 0x800 then [0xC0 + n / 64, 0x80 + n % 64]
  else if n < 0x10000 then [0xE0 + n / 4096, 0x80 + n / 64 % 64, 0x80 + n % 64]
  else [0xF0 + n / 262144, 0x80 + n / 4096 % 64, 0x80 + n / 64 % 64, 0x80 + n % 64]

/-- Encoding of one character under `urllib.parse.quote`. -/
def quoteChar (c : Char) : List Char :=
  if isQuoteSafe c then [c] else (utf8Bytes c).flatMap percentEncodeByte

/-- Model of `urllib.parse.quote` with its default `safe='/'`. -/
def quote (s : String) : String :=
  String.mk (s.data.flatMap quoteChar)

/-- `_build_search_url`: percent-encode the query and select the provider
template by exact match on `"yandex"` then `"bing"`, defaulting to Google. -/
def _build_search_url (engine : String) (query : String) : String :=
  let encoded_query := quote query
  if engine = "yandex" then "https://yandex.com/search/?text=" ++ encoded_query
  else if engine = "bing" then "https://www.bing.com/search?q=" ++ encoded_query
  else "https://www.google.com/search?q=" ++ encoded_query

/-- Result of the try block of `search_web`: either a returned record, or a
raised exception together with the value of the local variable `query` at the
raise site (`none` when `query` was not yet bound, for the handler's
check of `"query" in locals()`). -/
inductive TryOutcome where
  | normal : Data → TryOutcome
  | raised : PyExc → Option String → TryOutcome
deriving DecidableEq, Repr

/-- The try block of `search_web`, paired with the list of HTTP requests
issued (the dispatcher records its request even when it then raises). -/
def search_web_try (api_token : String) (query_input : QueryInput) (engine : String)
    (out : HTTPOutcome) : TryOutcome × List HTTPRequest :=
  let query := get_query_from_input query_input
  if query = "" then
    let error_msg := "Search query is required"
    (.normal { text := error_msg,
               data := [("status", DValue.str "error"), ("error", DValue.str error_msg)] }, [])
  else
    let search_url := _build_search_url engine query
    let headers : List (String × String) :=
      [("authorization", "Bearer " ++ api_token), ("Content-Type", "application/json")]
    let payload : List (String × String) :=
      [("url", search_url), ("zone", "mcp_unlocker"), ("format", "raw"),
       ("data_format", "markdown")]
    let req : HTTPRequest :=
      { url := "https://api.brightdata.com/request", payload := payload,
        headers := headers, timeout := 120 }
    match out with
    | .response response =>
      if response.status_code = 200 then
        let results := response.text
        (.normal { text := results,
                   data := [("query", DValue.str query), ("engine", DValue.str engine),
                            ("search_url", DValue.str search_url),
                            ("status", DValue.str "success"),
                            ("results_length", DValue.nat results.length)] }, [req])
      else
        let error_msg := "Error searching: HTTP " ++ toString response.status_code
          ++ " - " ++ response.text
        (.normal { text := error_msg,
                   data := [("query", DValue.str query), ("engine", DValue.str engine),
                            ("status", DValue.str "error"),
                            ("error", DValue.str error_msg)] }, [req])
    | .requestException e =>
      (.raised (PyExc.requestException e) (some query), [req])

/-- The `except requests.RequestException` handler: builds the error record,
reading `query` from the locals snapshot and falling back to `"unknown"`
when `query` was not bound at raise time. -/
def except_handler (query_local : Option String) (engine : String) (e : String) : Data :=
  let error_msg := "Exception occurred while searching: " ++ e
  let query := match query_local with | some q => q | none => "unknown"
  { text := error_msg,
    data := [("query", DValue.str query), ("engine", DValue.str engine),
             ("status", DValue.str "error"), ("error", DValue.str error_msg)] }

/-- `search_web`: the try block with the `RequestException` handler around it.
`Except.error` would be an exception propagating to the caller. -/
def search_web (api_token : String) (query_input : QueryInput) (engine : String)
    (out : HTTPOutcome) : Except PyExc (Data × List HTTPRequest) :=
  match search_web_try api_token query_input engine out with
  | (.normal d, reqs) => .ok (d, reqs)
  | (.raised (PyExc.requestException e) query_local, reqs) =>
      .ok (except_handler query_local engine e, reqs)

/-- The record an invocation returned, when it returned normally. -/
def result_data (r : Except PyExc (Data × List HTTPRequest)) : Option Data :=
  match r with
  | .ok (d, _) => some d
  | .error _ => none

/-- Lookup of a key in the returned record's dict, when the invocation
returned normally. -/
def lookup_of (r : Except PyExc (Data × List HTTPRequest)) (k : String) : Option DValue :=
  match r with
  | .ok (d, _) => Data.lookup d k
  | .error _ => none

/-- Text payload of the returned record, when the invocation returned
normally. -/
def text_of (r : Except PyExc (Data × List HTTPRequest)) : String :=
  match r with
  | .ok (d, _) => d.text
  | .error _ => ""

/-- The HTTP requests the invocation issued. -/
def requests_of (r : Except PyExc (Data × List HTTPRequest)) : List HTTPRequest :=
  match r with
  | .ok (_, reqs) => reqs
  | .error _ => []

/-! ### Helper lemmas about percent-encoding -/

/-- A hex digit emitted by a percent-escape is never a space. -/
theorem hexDigitChar_ne_space (n : Nat) : hexDigitChar n ≠ ' ' := by
  rcases Nat.lt_or_ge n 16 with h | h
  · interval_cases n <;> decide
  · unfold hexDigitChar
    rw [List.getD_eq_default]
    · decide
    · have hl : ("0123456789ABCDEF".data).length = 16 := rfl
      omega

/-- No character emitted by `quote` for a single input character is a
space: safe characters are kept (and the space is not safe), and escapes
consist of `%` and hex digits. -/
theorem mem_quoteChar_ne_space {c x : Char} (hx : x ∈ quoteChar c) : x ≠ ' ' := by
  unfold quoteChar at hx
  by_cases hs : isQuoteSafe c
  · rw [if_pos hs] at hx
    rcases List.mem_singleton.mp hx with rfl
    intro he
    rw [he] at hs
    exact absurd hs (by decide)
  · rw [if_neg hs] at hx
    rcases List.mem_flatMap.mp hx with ⟨b, _, hb⟩
    unfold percentEncodeByte at hb
    simp only [List.mem_cons, List.not_mem_nil, or_false] at hb
    rcases hb with rfl | rfl | rfl
    · decide
    · exact hexDigitChar_ne_space _
    · exact hexDigitChar_ne_space _

/-- The output of `quote` never contains a literal space. -/
theorem space_not_mem_quote (q : String) : ' ' ∉ (quote q).data := by
  intro hmem
  unfold quote at hmem
  rcases List.mem_flatMap.mp hmem with ⟨c, _, hc⟩
  exact mem_quoteChar_ne_space hc rfl

/-- The image of any list member under the encoding map appears
contiguously in the concatenated encoding. -/
theorem flatMap_infix_of_mem {α β : Type} (f : α → List β) {a : α} {l : List α}
    (h : a ∈ l) : f a <:+: l.flatMap f := by
  induction l with
  | nil => cases h
  | cons x xs ih =>
    rcases List.mem_cons.mp h with rfl | h2
    · exact ⟨[], xs.flatMap f, by simp⟩
    · exact (ih h2).trans ⟨f x, [], by simp⟩

end Brightdata

namespace Brightdata

/-! ### Claim theorems -/

/-- Claim C1: for every invocation with a non-empty trimmed query where the
POST returns status 200 with body `B`, `search_web` returns a success record
with `text = B` and data containing the query, engine, search URL,
`status = "success"`, and `results_length` equal to the length of `B`. -/
theorem search_web_http200_success (tok : String) (qi : QueryInput) (eng B : String)
    (h : get_query_from_input qi ≠ "") :
    search_web tok qi eng (HTTPOutcome.response ⟨200, B⟩) =
      Except.ok
        ({ text := B,
           data := [("query", DValue.str (get_query_from_input qi)),
                    ("engine", DValue.str eng),
                    ("search_url", DValue.str (_build_search_url eng (get_query_from_input qi))),
                    ("status", DValue.str "success"),
                    ("results_length", DValue.nat B.length)] },
         [{ url := "https://api.brightdata.com/request",
            payload := [("url", _build_search_url eng (get_query_from_input qi)),
                        ("zone", "mcp_unlocker"), ("format", "raw"), ("data_format", "markdown")],
            headers := [("authorization", "Bearer " ++ tok), ("Content-Type", "application/json")],
            timeout := 120 }]) := by
  simp [search_web, search_web_try, h]

/-- Witness for C1 at the concrete 200-response with body `"X"`
(`results_length` is the length of `"X"`, i.e. 1). -/
theorem search_web_http200_success_witness :
    search_web "tok" (QueryInput.plain "q") "google" (HTTPOutcome.response ⟨200, "X"⟩) =
      Except.ok
        ({ text := "X",
           data := [("query", DValue.str (get_query_from_input (QueryInput.plain "q"))),
                    ("engine", DValue.str "google"),
                    ("search_url",
                     DValue.str (_build_search_url "google" (get_query_from_input (QueryInput.plain "q")))),
                    ("status", DValue.str "success"),
                    ("results_length", DValue.nat 1)] },
         [{ url := "https://api.brightdata.com/request",
            payload := [("url", _build_search_url "google" (get_query_from_input (QueryInput.plain "q"))),
                        ("zone", "mcp_unlocker"), ("format", "raw"), ("data_format", "markdown")],
            headers := [("authorization", "Bearer " ++ "tok"), ("Content-Type", "application/json")],
            timeout := 120 }]) :=
  search_web_http200_success "tok" (QueryInput.plain "q") "google" "X" (by decide)

/-- Claim C2, counterexample: 201 lies in the 2xx range, yet the code
(`if response.status_code == 200`) classifies a 201 response as an error. -/
theorem http_2xx_success_counterexample :
    (200 ≤ 201 ∧ 201 < 300) ∧
    lookup_of (search_web "tok" (QueryInput.plain "q") "google"
        (HTTPOutcome.response ⟨201, "created"⟩)) "status" = some (DValue.str "error") :=
  ⟨⟨by norm_num, by norm_num⟩, rfl⟩

/-- Claim C2 as amended: the success/error classification follows the exact
status-code-200 boundary, not the 2xx range: status 200 gives a success
record, and every other status code (2xx or not) gives an error record
whose message includes the status code and the response body. -/
theorem search_web_status_code_boundary (tok : String) (qi : QueryInput) (eng : String)
    (code : Nat) (body : String) (h : get_query_from_input qi ≠ "") :
    (code = 200 →
      lookup_of (search_web tok qi eng (HTTPOutcome.response ⟨code, body⟩)) "status" =
        some (DValue.str "success")) ∧
    (code ≠ 200 →
      lookup_of (search_web tok qi eng (HTTPOutcome.response ⟨code, body⟩)) "status" =
        some (DValue.str "error") ∧
      (toString code).data <:+:
        (text_of (search_web tok qi eng (HTTPOutcome.response ⟨code, body⟩))).data ∧
      body.data <:+:
        (text_of (search_web tok qi eng (HTTPOutcome.response ⟨code, body⟩))).data) := by
  constructor
  · intro hc
    subst hc
    simp [lookup_of, search_web, search_web_try, h, Data.lookup, List.lookup]
  · intro hc
    have htext : text_of (search_web tok qi eng (HTTPOutcome.response ⟨code, body⟩)) =
        "Error searching: HTTP " ++ toString code ++ " - " ++ body := by
      simp [text_of, search_web, search_web_try, h, hc]
    refine ⟨?_, ?_, ?_⟩
    · simp [lookup_of, search_web, search_web_try, h, hc, Data.lookup, List.lookup]
    · rw [htext]
      exact ⟨"Error searching: HTTP ".data, " - ".data ++ body.data,
        by simp [String.data_append]⟩
    · rw [htext]
      exact ⟨("Error searching: HTTP " ++ toString code ++ " - ").data, [],
        by simp [String.data_append]⟩

/-- Witness for the amended C2 at a concrete 503 response: error status, and
the error text contains both "503" and the body. -/
theorem search_web_status_code_boundary_witness :
    lookup_of (search_web "tok" (QueryInput.plain "q") "google"
        (HTTPOutcome.response ⟨503, "down"⟩)) "status" = some (DValue.str "error") ∧
    (toString 503).data <:+:
      (text_of (search_web "tok" (QueryInput.plain "q") "google"
        (HTTPOutcome.response ⟨503, "down"⟩))).data ∧
    "down".data <:+:
      (text_of (search_web "tok" (QueryInput.plain "q") "google"
        (HTTPOutcome.response ⟨503, "down"⟩))).data :=
  (search_web_status_code_boundary "tok" (QueryInput.plain "q") "google" 503 "down"
    (by decide)).2 (by decide)

/-- Claim C3: `search_web` never raises to the caller: for every input it
returns normally, and a transport failure is converted into the uniform
error record with `status = "error"`. -/
theorem search_web_never_raises (tok : String) (qi : QueryInput) (eng : String)
    (out : HTTPOutcome) :
    (search_web tok qi eng out).isOk = true ∧
    (∀ e, out = HTTPOutcome.requestException e →
      lookup_of (search_web tok qi eng out) "status" = some (DValue.str "error")) := by
  by_cases h : get_query_from_input qi = ""
  · refine ⟨by simp [search_web, search_web_try, h, Except.isOk, Except.toBool], ?_⟩
    intro e he
    subst he
    simp [lookup_of, search_web, search_web_try, h, Data.lookup, List.lookup]
  · cases out with
    | response r =>
      refine ⟨?_, ?_⟩
      · by_cases hc : r.status_code = 200
        · simp [search_web, search_web_try, h, hc, Except.isOk, Except.toBool]
        · simp [search_web, search_web_try, h, hc, Except.isOk, Except.toBool]
      · intro e he
        cases he
    | requestException e =>
      refine ⟨by simp [search_web, search_web_try, h, Except.isOk, Except.toBool], ?_⟩
      intro e' he
      cases he
      simp [lookup_of, search_web, search_web_try, except_handler, h, Data.lookup, List.lookup]

/-- Witness for C3 at a concrete connection failure. -/
theorem search_web_never_raises_witness :
    (search_web "tok" (QueryInput.plain "q") "google"
        (HTTPOutcome.requestException "connection refused")).isOk = true ∧
    lookup_of (search_web "tok" (QueryInput.plain "q") "google"
        (HTTPOutcome.requestException "connection refused")) "status" =
      some (DValue.str "error") :=
  ⟨(search_web_never_raises "tok" (QueryInput.plain "q") "google"
      (HTTPOutcome.requestException "connection refused")).1,
   (search_web_never_raises "tok" (QueryInput.plain "q") "google"
      (HTTPOutcome.requestException "connection refused")).2 "connection refused" rfl⟩

/-- Claim C4: an empty or whitespace-only query (after extraction and
trimming) returns the validation error record immediately, and no HTTP
request is issued (the request list is empty, whatever the network would
have delivered). -/
theorem empty_query_short_circuit (tok : String) (qi : QueryInput) (eng : String)
    (out : HTTPOutcome) (h : get_query_from_input qi = "") :
    search_web tok qi eng out =
      Except.ok ({ text := "Search query is required",
                   data := [("status", DValue.str "error"),
                            ("error", DValue.str "Search query is required")] },
                 ([] : List HTTPRequest)) := by
  simp [search_web, search_web_try, h]

/-- Witness for C4 at a concrete whitespace-only query. -/
theorem empty_query_short_circuit_witness :
    search_web "tok" (QueryInput.plain "   ") "google" (HTTPOutcome.response ⟨200, "B"⟩) =
      Except.ok ({ text := "Search query is required",
                   data := [("status", DValue.str "error"),
                            ("error", DValue.str "Search query is required")] },
                 ([] : List HTTPRequest)) :=
  empty_query_short_circuit "tok" (QueryInput.plain "   ") "google"
    (HTTPOutcome.response ⟨200, "B"⟩) (by decide)

/-- Claim C5: the URL builder maps "yandex" to the yandex.com template and
"bing" to the www.bing.com template, and every other selector (including
"google") falls through to the www.google.com template; it is a total
function and never fails. -/
theorem build_search_url_engine_selection (q e : String) :
    _build_search_url "yandex" q = "https://yandex.com/search/?text=" ++ quote q ∧
    _build_search_url "bing" q = "https://www.bing.com/search?q=" ++ quote q ∧
    (e ≠ "yandex" → e ≠ "bing" →
      _build_search_url e q = "https://www.google.com/search?q=" ++ quote q) := by
  refine ⟨by simp [_build_search_url], by simp [_build_search_url],
    fun h1 h2 => by simp [_build_search_url, h1, h2]⟩

/-- Witness for C5: the default branch at the concrete selector "google". -/
theorem build_search_url_engine_selection_witness :
    _build_search_url "google" "a" = "https://www.google.com/search?q=" ++ quote "a" :=
  (build_search_url_engine_selection "a" "google").2.2 (by decide) (by decide)

/-- Claim C6: for every engine and query, a query containing a space yields
"%20" in the built URL, and the built URL never contains a literal space. -/
theorem query_percent_encoded (eng q : String) (h : ' ' ∈ q.data) :
    ("%20".data <:+: (_build_search_url eng q).data) ∧
    ' ' ∉ (_build_search_url eng q).data := by
  have hq : "%20".data <:+: (quote q).data := by
    have hinf := flatMap_infix_of_mem quoteChar h
    have hc : quoteChar ' ' = ['%', '2', '0'] := by decide
    rw [hc] at hinf
    exact hinf
  have hurl : ∃ t : String, _build_search_url eng q = t ++ quote q ∧ ' ' ∉ t.data := by
    by_cases h1 : eng = "yandex"
    · exact ⟨"https://yandex.com/search/?text=", by simp [_build_search_url, h1], by decide⟩
    · by_cases h2 : eng = "bing"
      · exact ⟨"https://www.bing.com/search?q=", by simp [_build_search_url, h1, h2], by decide⟩
      · exact ⟨"https://www.google.com/search?q=", by simp [_build_search_url, h1, h2], by decide⟩
  rcases hurl with ⟨t, ht, hts⟩
  rw [ht]
  constructor
  · rw [String.data_append]
    exact hq.trans ⟨t.data, [], by simp⟩
  · rw [String.data_append]
    intro hm
    rcases List.mem_append.mp hm with hm | hm
    · exact hts hm
    · exact space_not_mem_quote q hm

/-- Witness for C6 at the concrete query "a b". -/
theorem query_percent_encoded_witness :
    ("%20".data <:+: (_build_search_url "google" "a b").data) ∧
    ' ' ∉ (_build_search_url "google" "a b").data :=
  query_percent_encoded "google" "a b" (by decide)

/-- Claim C7: for every invocation with a non-empty query, exactly one POST
request is issued, to the fixed endpoint, with the specified JSON payload,
bearer-token headers, and a 120-second timeout, for every HTTP outcome. -/
theorem single_fixed_post_request (tok : String) (qi : QueryInput) (eng : String)
    (out : HTTPOutcome) (h : get_query_from_input qi ≠ "") :
    requests_of (search_web tok qi eng out) =
      [{ url := "https://api.brightdata.com/request",
         payload := [("url", _build_search_url eng (get_query_from_input qi)),
                     ("zone", "mcp_unlocker"), ("format", "raw"), ("data_format", "markdown")],
         headers := [("authorization", "Bearer " ++ tok), ("Content-Type", "application/json")],
         timeout := 120 }] := by
  cases out with
  | response r =>
    by_cases hc : r.status_code = 200
    · simp [requests_of, search_web, search_web_try, h, hc]
    · simp [requests_of, search_web, search_web_try, h, hc]
  | requestException e =>
    simp [requests_of, search_web, search_web_try, h]

/-- Witness for C7 at a concrete invocation. -/
theorem single_fixed_post_request_witness :
    requests_of (search_web "tok" (QueryInput.plain "q") "bing"
        (HTTPOutcome.response ⟨200, "B"⟩)) =
      [{ url := "https://api.brightdata.com/request",
         payload := [("url", _build_search_url "bing" (get_query_from_input (QueryInput.plain "q"))),
                     ("zone", "mcp_unlocker"), ("format", "raw"), ("data_format", "markdown")],
         headers := [("authorization", "Bearer " ++ "tok"), ("Content-Type", "application/json")],
         timeout := 120 }] :=
  single_fixed_post_request "tok" (QueryInput.plain "q") "bing"
    (HTTPOutcome.response ⟨200, "B"⟩) (by decide)

/-- Claim C8, counterexample: the empty-query validation record contains
only the keys "status" and "error" - the keys "query" and "engine" claimed
for every record are absent on that path. -/
theorem result_keys_counterexample :
    get_query_from_input (QueryInput.plain " ") = "" ∧
    lookup_of (search_web "tok" (QueryInput.plain " ") "google"
        (HTTPOutcome.response ⟨200, "B"⟩)) "query" = none ∧
    lookup_of (search_web "tok" (QueryInput.plain " ") "google"
        (HTTPOutcome.response ⟨200, "B"⟩)) "engine" = none ∧
    lookup_of (search_web "tok" (QueryInput.plain " ") "google"
        (HTTPOutcome.response ⟨200, "B"⟩)) "status" = some (DValue.str "error") :=
  ⟨rfl, rfl, rfl, rfl⟩

/-- Claim C8 as amended: every record has a "status" key ("success" or
"error"), plus either an "error" message or both "search_url" and
"results_length"; records produced after query validation also carry the
"query" and "engine" keys, while the empty-query validation record carries
only "status" and "error". -/
theorem result_record_key_invariant (tok : String) (qi : QueryInput) (eng : String)
    (out : HTTPOutcome) :
    (lookup_of (search_web tok qi eng out) "status" = some (DValue.str "success") ∨
     lookup_of (search_web tok qi eng out) "status" = some (DValue.str "error")) ∧
    ((lookup_of (search_web tok qi eng out) "error").isSome = true ∨
     ((lookup_of (search_web tok qi eng out) "search_url").isSome = true ∧
      (lookup_of (search_web tok qi eng out) "results_length").isSome = true)) ∧
    (get_query_from_input qi ≠ "" →
      lookup_of (search_web tok qi eng out) "query" =
        some (DValue.str (get_query_from_input qi)) ∧
      lookup_of (search_web tok qi eng out) "engine" = some (DValue.str eng)) ∧
    (get_query_from_input qi = "" →
      result_data (search_web tok qi eng out) =
        some { text := "Search query is required",
               data := [("status", DValue.str "error"),
                        ("error", DValue.str "Search query is required")] }) := by
  by_cases h : get_query_from_input qi = ""
  · refine ⟨?_, ?_, fun hne => absurd h hne, fun _ => ?_⟩
    · right
      simp [lookup_of, search_web, search_web_try, h, Data.lookup, List.lookup]
    · left
      simp [lookup_of, search_web, search_web_try, h, Data.lookup, List.lookup]
    · simp [result_data, search_web, search_web_try, h]
  · cases out with
    | response r =>
      by_cases hc : r.status_code = 200
      · refine ⟨Or.inl ?_, Or.inr ⟨?_, ?_⟩, fun _ => ⟨?_, ?_⟩, fun he => absurd he h⟩ <;>
          simp [lookup_of, search_web, search_web_try, h, hc, Data.lookup, List.lookup]
      · refine ⟨Or.inr ?_, Or.inl ?_, fun _ => ⟨?_, ?_⟩, fun he => absurd he h⟩ <;>
          simp [lookup_of, search_web, search_web_try, h, hc, Data.lookup, List.lookup]
    | requestException e =>
      refine ⟨Or.inr ?_, Or.inl ?_, fun _ => ⟨?_, ?_⟩, fun he => absurd he h⟩ <;>
        simp [lookup_of, search_web, search_web_try, except_handler, h, Data.lookup, List.lookup]

/-- Witness for the amended C8: the "query" and "engine" keys on a concrete
post-validation record. -/
theorem result_record_key_invariant_witness :
    lookup_of (search_web "tok" (QueryInput.plain "q") "google"
        (HTTPOutcome.response ⟨200, "B"⟩)) "query" =
      some (DValue.str (get_query_from_input (QueryInput.plain "q"))) ∧
    lookup_of (search_web "tok" (QueryInput.plain "q") "google"
        (HTTPOutcome.response ⟨200, "B"⟩)) "engine" = some (DValue.str "google") :=
  (result_record_key_invariant "tok" (QueryInput.plain "q") "google"
    (HTTPOutcome.response ⟨200, "B"⟩)).2.2.1 (by decide)

/-- Claim C9: on a transport failure with a non-empty query, the error
record's message includes the exception text and its "query" field is the
extracted query; the raise site always has the `query` local bound, and the
handler's "unknown" placeholder is used exactly when `query` is unbound. -/
theorem transport_failure_error_record (tok : String) (qi : QueryInput) (eng e : String)
    (h : get_query_from_input qi ≠ "") :
    lookup_of (search_web tok qi eng (HTTPOutcome.requestException e)) "query" =
      some (DValue.str (get_query_from_input qi)) ∧
    lookup_of (search_web tok qi eng (HTTPOutcome.requestException e)) "status" =
      some (DValue.str "error") ∧
    e.data <:+: (text_of (search_web tok qi eng (HTTPOutcome.requestException e))).data ∧
    (∀ exc qloc reqs,
      search_web_try tok qi eng (HTTPOutcome.requestException e) =
        (TryOutcome.raised exc qloc, reqs) →
      qloc = some (get_query_from_input qi)) ∧
    Data.lookup (except_handler none eng e) "query" = some (DValue.str "unknown") := by
  have htext : text_of (search_web tok qi eng (HTTPOutcome.requestException e)) =
      "Exception occurred while searching: " ++ e := by
    simp [text_of, search_web, search_web_try, except_handler, h]
  refine ⟨?_, ?_, ?_, ?_, ?_⟩
  · simp [lookup_of, search_web, search_web_try, except_handler, h, Data.lookup, List.lookup]
  · simp [lookup_of, search_web, search_web_try, except_handler, h, Data.lookup, List.lookup]
  · rw [htext]
    exact ⟨"Exception occurred while searching: ".data, [], by simp [String.data_append]⟩
  · intro exc qloc reqs heq
    simp [search_web_try, h] at heq
    exact heq.1.2.symm
  · simp [except_handler, Data.lookup, List.lookup]

/-- Witness for C9 at a concrete timeout failure. -/
theorem transport_failure_error_record_witness :
    lookup_of (search_web "tok" (QueryInput.plain "q") "google"
        (HTTPOutcome.requestException "timed out")) "query" =
      some (DValue.str (get_query_from_input (QueryInput.plain "q"))) ∧
    lookup_of (search_web "tok" (QueryInput.plain "q") "google"
        (HTTPOutcome.requestException "timed out")) "status" =
      some (DValue.str "error") ∧
    "timed out".data <:+:
      (text_of (search_web "tok" (QueryInput.plain "q") "google"
        (HTTPOutcome.requestException "timed out"))).data ∧
    (∀ exc qloc reqs,
      search_web_try "tok" (QueryInput.plain "q") "google"
          (HTTPOutcome.requestException "timed out") =
        (TryOutcome.raised exc qloc, reqs) →
      qloc = some (get_query_from_input (QueryInput.plain "q"))) ∧
    Data.lookup (except_handler none "google" "timed out") "query" =
      some (DValue.str "unknown") :=
  transport_failure_error_record "tok" (QueryInput.plain "q") "google" "timed out" (by decide)

/-- Claim C10: the returned record does not depend on the API token: two
invocations differing only in the token return identical result records
(the token reaches only the outbound authorization header). -/
theorem api_token_noninterference (tok1 tok2 : String) (qi : QueryInput) (eng : String)
    (out : HTTPOutcome) :
    result_data (search_web tok1 qi eng out) = result_data (search_web tok2 qi eng out) := by
  by_cases h : get_query_from_input qi = ""
  · simp [result_data, search_web, search_web_try, h]
  · cases out with
    | response r =>
      by_cases hc : r.status_code = 200
      · simp [result_data, search_web, search_web_try, h, hc]
      · simp [result_data, search_web, search_web_try, h, hc]
    | requestException e =>
      simp [result_data, search_web, search_web_try, h]

end Brightdata
